import Mathlib

/-
Shallow embedding of the geopoint SurveyJS custom widget
(src/src/geopoint.js) and the parts of the microphone widget
(src/src/microphone.js) relevant to read-only gating.

Coordinates are modelled as exact rationals; the source's floating-point
latitudes/longitudes are carried through unmodified by every operation we
model, so exact equality of the embedded values corresponds to bit-identical
floats in the source (well within any tolerance such as 1e-9).

The widget state after `afterRender` is modelled explicitly:
  - `value` is `question.value` (the persisted field value);
  - `mapLayers` are layers added directly to the Leaflet map and not to the
    `drawnItems` feature group (the rehydrated point marker of line 107 and
    the geolocation marker of line 58);
  - `drawnItems` is the `L.FeatureGroup` of line 46.  The group itself is on
    the map, so its members are displayed; `drawnItems.clearLayers()` removes
    its members from the map as well.  Rehydrated polylines/polygons
    (lines 111-116) are added both to the map and to the group; since the
    group membership is what `clearLayers` sees and display is the union,
    they are recorded in `drawnItems`.
  - `center` records the last `map.setView` call, `alerts` the `alert`
    messages raised, `geoRequests` the number of
    `navigator.geolocation.getCurrentPosition` calls issued, and the
    `...Installed` flags which event handlers were wired.
-/

namespace Geopoint

/-- A latitude/longitude pair, as produced by `{ lat: ..., lng: ... }`
objects in the source. -/
structure GeoPoint where
  lat : ℚ
  lng : ℚ
deriving DecidableEq, Repr

/-- The shapes a persisted `question.value` can take for the core modes:
absent (`undefined`/`null`, falsy in the `if (question.value)` check of
line 103), a point object `{lat, lng}`, or an array of point objects.
Note that `trace` and `area` commits both persist a flat array of points
(lines 93 and 96): the two are structurally indistinguishable. -/
inductive CapturedValue where
  | absent
  | point (p : GeoPoint)
  | path (pts : List GeoPoint)
deriving DecidableEq, Repr

/-- A Leaflet layer as the widget uses it: a marker at one point, a polyline
through an ordered vertex list, or a polygon whose `getLatLngs()` returns a
list of rings of which the source reads only `latlngs[0]` (line 96).
The first ring is kept separately so that `latlngs[0]` is total. -/
inductive Layer where
  | marker (p : GeoPoint)
  | polyline (pts : List GeoPoint)
  | polygon (firstRing : List GeoPoint) (innerRings : List (List GeoPoint))
deriving DecidableEq, Repr

/-- The slice of the SurveyJS `question` object the widget reads:
`question.geoFormat` (absent property modelled as `none`), `question.value`,
and `question.isReadOnly`. -/
structure Question where
  geoFormat : Option String
  value : CapturedValue
  isReadOnly : Bool
deriving DecidableEq, Repr

/-- Observable widget state after rendering and subsequent events. -/
structure WidgetState where
  value : CapturedValue
  mapLayers : List Layer
  drawnItems : List Layer
  center : Option (GeoPoint × Nat)
  alerts : List String
  geoRequests : Nat
  clickHandlerInstalled : Bool
  createdHandlerInstalled : Bool
  valueChangedCallbackInstalled : Bool
  mapRemoved : Bool
deriving DecidableEq, Repr

/-- Line 54: `const geoFormat = question.geoFormat || "current";`.
JS `||` falls through both on an absent property (`undefined`) and on the
empty string, both falsy; any other string is kept verbatim. -/
def resolveFormat (g : Option String) : String :=
  match g with
  | none => "current"
  | some s => if s = "" then "current" else s

/-- Lines 87-97: the value computed by the `L.Draw.Event.CREATED` handler
from the created layer.  A marker yields a point object, a polyline the
ordered list of all its vertices, a polygon the ordered list of its first
ring's vertices (`latlngs[0]`), inner rings dropped. -/
def serializeLayer : Layer → CapturedValue
  | .marker p => .point p
  | .polyline pts => .path pts
  | .polygon firstRing _ => .path firstRing

/-- Lines 102-151: the saved-value rehydration block, for a state `s` just
after event wiring.  `absent` is falsy and skips the block.  For
`current`/`manual` the destructuring `const { lat, lng } = question.value`
yields `undefined` fields unless the value is a point object, and the marker
of line 107 is added directly to the map, not to `drawnItems`.  For
`trace`/`area` the `Array.isArray` guard admits exactly the array shape and
the shape is added to the map and to `drawnItems` (lines 111-116).  The
`both`/`full` branches (lines 118-150) read `.trace`/`.area`/`.lat`/`.lng`
sub-fields, which none of the core value shapes carry, so with these values
the `both` branch draws empty shapes and the `full` branch draws only the
marker of a point value. -/
def loadSavedValue (g : String) (v : CapturedValue) (s : WidgetState) : WidgetState :=
  match v with
  | .absent => s
  | .point p =>
    if g = "current" ∨ g = "manual" then
      { s with mapLayers := s.mapLayers ++ [.marker p], center := some (p, 15) }
    else if g = "both" then
      { s with drawnItems := s.drawnItems ++ [.polyline [], .polygon [] []] }
    else if g = "full" then
      { s with drawnItems := s.drawnItems ++ [.marker p] }
    else s
  | .path pts =>
    if g = "trace" then
      { s with drawnItems := s.drawnItems ++ [.polyline pts] }
    else if g = "area" then
      { s with drawnItems := s.drawnItems ++ [.polygon pts []] }
    else if g = "both" then
      { s with drawnItems := s.drawnItems ++ [.polyline [], .polygon [] []] }
    else s

/-- Lines 40-155: the synchronous body of `afterRender`.  The map starts at
`setView([0, 0], 2)`; the resolved format selects which capture wiring is
installed (`current` issues one geolocation request, `manual` installs the
click handler, `trace`/`area`/`both`/`full` install the draw control and the
CREATED handler, any other string installs nothing); then the saved value is
rehydrated and `question.valueChangedCallback` is set.  `question.isReadOnly`
is never consulted. -/
def afterRender (q : Question) : WidgetState :=
  let g := resolveFormat q.geoFormat
  let s0 : WidgetState :=
    { value := q.value
      mapLayers := []
      drawnItems := []
      center := some (⟨0, 0⟩, 2)
      alerts := []
      geoRequests := 0
      clickHandlerInstalled := false
      createdHandlerInstalled := false
      valueChangedCallbackInstalled := false
      mapRemoved := false }
  let s1 :=
    if g = "current" then { s0 with geoRequests := s0.geoRequests + 1 }
    else if g = "manual" then { s0 with clickHandlerInstalled := true }
    else if g = "trace" ∨ g = "area" ∨ g = "both" ∨ g = "full" then
      { s0 with createdHandlerInstalled := true }
    else s0
  let s2 := loadSavedValue g q.value s1
  { s2 with valueChangedCallbackInstalled := true }

/-- Lines 64-68: a map click.  If the manual-mode click handler was wired,
it clears the `drawnItems` group (removing its members from display), adds a
marker at the click to the group, and commits `{lat, lng}`; otherwise the
click does nothing. -/
def clickEvent (p : GeoPoint) (s : WidgetState) : WidgetState :=
  if s.clickHandlerInstalled then
    { s with drawnItems := [.marker p], value := .point p }
  else s

/-- Lines 84-99: a `L.Draw.Event.CREATED` event.  If the CREATED handler was
wired, it clears the `drawnItems` group, adds the created layer to it, and
commits the serialized value; otherwise nothing happens. -/
def createdEvent (layer : Layer) (s : WidgetState) : WidgetState :=
  if s.createdHandlerInstalled then
    { s with drawnItems := [layer], value := serializeLayer layer }
  else s

/-- Lines 56-60: the geolocation success callback.  It adds a marker at the
reported coordinates directly to the map, centers the view on it at zoom 15,
and commits `{lat, lng}`.  It performs no check that the widget is still
mounted before doing any of this. -/
def geoSuccess (lat lng : ℚ) (s : WidgetState) : WidgetState :=
  { s with mapLayers := s.mapLayers ++ [.marker ⟨lat, lng⟩]
           center := some (⟨lat, lng⟩, 15)
           value := .point ⟨lat, lng⟩ }

/-- Line 61: the geolocation error callback raises an alert and nothing
else; no value is committed and the request is not reissued. -/
def geoError (s : WidgetState) : WidgetState :=
  { s with alerts := s.alerts ++ ["Unable to retrieve location"] }

/-- Lines 157-161: `willUnmount` removes the Leaflet map.  It installs no
guard that would stop a still-pending geolocation callback. -/
def willUnmount (s : WidgetState) : WidgetState :=
  { s with mapRemoved := true }

/-- Line 154: `question.valueChangedCallback = () => {};` — the installed
callback has an empty body, so the host's change notification leaves the
state exactly as it found it. -/
def installedValueChangedCallback (s : WidgetState) : WidgetState := s

/-- A host-side programmatic value change (`question.value = v` performed by
the host, e.g. `setValue`): it changes the stored value and then the host
invokes `valueChangedCallback`. -/
def hostSetValue (v : CapturedValue) (s : WidgetState) : WidgetState :=
  { s with value := v }

/-- Everything displayed: layers added directly to the map plus the members
of the `drawnItems` group (which is itself on the map). -/
def WidgetState.displayedLayers (s : WidgetState) : List Layer :=
  s.mapLayers ++ s.drawnItems

/-- Whether a layer is a marker. -/
def Layer.isMarker : Layer → Bool
  | .marker _ => true
  | _ => false

/-- Number of markers currently displayed. -/
def WidgetState.displayedMarkerCount (s : WidgetState) : Nat :=
  (s.displayedLayers.filter Layer.isMarker).length

/-- The ordered vertex sequence of a layer. -/
def layerCoords : Layer → List GeoPoint
  | .marker p => [p]
  | .polyline pts => pts
  | .polygon firstRing innerRings => firstRing ++ innerRings.flatten

/-- The ordered coordinate sequence carried by a persisted value. -/
def CapturedValue.coords : CapturedValue → List GeoPoint
  | .absent => []
  | .point p => [p]
  | .path pts => pts

/-- The ordered coordinate sequence of everything displayed. -/
def WidgetState.displayedCoords (s : WidgetState) : List GeoPoint :=
  (s.displayedLayers.map layerCoords).flatten

/-- The layers the drawing tool can produce in a given mode: `current` and
`manual` commit single points (markers), `trace` enables only polylines,
`area` only polygons (line 74-76); the drawing tool never produces shapes
with an empty vertex list. -/
def layerAllowed : String → Layer → Bool
  | "current", .marker _ => true
  | "manual", .marker _ => true
  | "trace", .polyline pts => !pts.isEmpty
  | "area", .polygon firstRing _ => !firstRing.isEmpty
  | _, _ => false

end Geopoint

namespace Geopoint

/-- C1: for every mode among current, manual, trace and area, and every
geometry the mode's capture tooling can commit, serializing it into the
persisted CapturedValue and rehydrating that value under the same mode
displays exactly the persisted ordered coordinate sequence — same order, no
deduplication, no dropped vertices.  The embedding carries coordinates
exactly, so equality here is exact and in particular within 1e-9. -/
theorem roundtrip_rehydration (m : String) (L : Layer)
    (hm : m ∈ (["current", "manual", "trace", "area"] : List String))
    (hL : layerAllowed m L = true) :
    (afterRender ⟨some m, serializeLayer L, false⟩).displayedCoords
      = (serializeLayer L).coords := by
  fin_cases hm <;> cases L <;>
    simp_all [layerAllowed, afterRender, resolveFormat, loadSavedValue,
      serializeLayer, WidgetState.displayedCoords, WidgetState.displayedLayers,
      layerCoords, CapturedValue.coords]

/-- Witness: the round-trip law applied in trace mode to the concrete
polyline through (0,0), (1,1), (2,2). -/
theorem roundtrip_rehydration_witness :
    (afterRender ⟨some "trace",
        serializeLayer (.polyline [⟨0, 0⟩, ⟨1, 1⟩, ⟨2, 2⟩]), false⟩).displayedCoords
      = (serializeLayer (.polyline [⟨0, 0⟩, ⟨1, 1⟩, ⟨2, 2⟩])).coords :=
  roundtrip_rehydration "trace" (.polyline [⟨0, 0⟩, ⟨1, 1⟩, ⟨2, 2⟩])
    (by decide) (by decide)

/-- C9: rendering the widget only reads the persisted value — for every
question (every mode string and every previously persisted value), the value
after `afterRender` is exactly the value before it; in particular an absent
value stays absent until some commit event fires. -/
theorem render_preserves_value (q : Question) :
    (afterRender q).value = q.value := by
  obtain ⟨g, v, ro⟩ := q
  cases v <;> simp only [afterRender, loadSavedValue] <;> (repeat' split) <;> rfl

/-- C10: `afterRender` installs `question.valueChangedCallback = () => {}`;
a host-side programmatic value change after render therefore leaves the
displayed geometry (both the directly-added map layers and the drawn-items
group) unchanged — the overlay reacts only to capture events or a re-render. -/
theorem value_changed_callback_noop (q : Question) (v : CapturedValue)
    (s : WidgetState) :
    (afterRender q).valueChangedCallbackInstalled = true ∧
    installedValueChangedCallback (hostSetValue v s) = hostSetValue v s ∧
    (installedValueChangedCallback (hostSetValue v s)).drawnItems = s.drawnItems ∧
    (installedValueChangedCallback (hostSetValue v s)).mapLayers = s.mapLayers :=
  ⟨rfl, rfl, rfl, rfl⟩

end Geopoint

namespace Geopoint

/-- Applying a sequence of map clicks in arrival order. -/
def applyClicks (clicks : List GeoPoint) (s : WidgetState) : WidgetState :=
  clicks.foldl (fun a p => clickEvent p a) s

/-- Applying a sequence of shape-created events in arrival order. -/
def applyCreatedEvents (events : List Layer) (s : WidgetState) : WidgetState :=
  events.foldl (fun a e => createdEvent e a) s

theorem applyClicks_append_last (s : WidgetState)
    (hs : s.clickHandlerInstalled = true) (cs : List GeoPoint) (p : GeoPoint) :
    applyClicks (cs ++ [p]) s =
      { s with drawnItems := [.marker p], value := .point p } := by
  induction cs generalizing s with
  | nil => simp [applyClicks, clickEvent, hs]
  | cons c cs ih =>
    have h2 : (clickEvent c s).clickHandlerInstalled = true := by
      simp [clickEvent, hs]
    have hstep : applyClicks ((c :: cs) ++ [p]) s
        = applyClicks (cs ++ [p]) (clickEvent c s) := rfl
    rw [hstep, ih _ h2]
    simp [clickEvent, hs]

theorem applyCreatedEvents_append_last (s : WidgetState)
    (hs : s.createdHandlerInstalled = true) (es : List Layer) (e : Layer) :
    applyCreatedEvents (es ++ [e]) s =
      { s with drawnItems := [e], value := serializeLayer e } := by
  induction es generalizing s with
  | nil => simp [applyCreatedEvents, createdEvent, hs]
  | cons c cs ih =>
    have h2 : (createdEvent c s).createdHandlerInstalled = true := by
      simp [createdEvent, hs]
    have hstep : applyCreatedEvents ((c :: cs) ++ [e]) s
        = applyCreatedEvents (cs ++ [e]) (createdEvent c s) := rfl
    rw [hstep, ih _ h2]
    simp [createdEvent, hs]

theorem manual_render_facts (q : Question)
    (hq : resolveFormat q.geoFormat = "manual") :
    (afterRender q).clickHandlerInstalled = true ∧
    (q.value = .absent → (afterRender q).mapLayers = []) := by
  obtain ⟨g, v, ro⟩ := q
  cases v <;> simp_all [afterRender, loadSavedValue]

theorem trace_area_render_facts (q : Question)
    (hq : resolveFormat q.geoFormat = "trace" ∨ resolveFormat q.geoFormat = "area") :
    (afterRender q).createdHandlerInstalled = true ∧
    (afterRender q).mapLayers = [] := by
  obtain ⟨g, v, ro⟩ := q
  rcases hq with h | h <;> cases v <;> simp_all [afterRender, loadSavedValue]

/-- C2 (counterexample): the claim fails when a previously persisted point
was rehydrated before the clicks.  Rehydration (line 107) adds the saved
marker directly to the map, not to the drawn-items group, so the click
handler's `drawnItems.clearLayers()` does not remove it: after rehydrating
the point (10,20) and clicking once at (11,21), two markers are displayed,
not exactly one. -/
theorem manual_click_after_rehydration_two_markers :
    (clickEvent ⟨11, 21⟩
        (afterRender ⟨some "manual", .point ⟨10, 20⟩, false⟩)).displayedMarkerCount = 2 ∧
    ¬ (clickEvent ⟨11, 21⟩
        (afterRender ⟨some "manual", .point ⟨10, 20⟩, false⟩)).displayedMarkerCount = 1 := by
  constructor <;> decide

/-- C2 (amended): in manual mode every click clears the drawn-items group and
commits the click's coordinates, so after any click sequence ending at p the
group holds exactly the marker at p and the persisted value is p; when no
prior point was rehydrated, exactly one marker is displayed in total.  A
marker rehydrated from a previously persisted point, however, is added
directly to the map rather than to the drawn-items group, and clicks do not
remove it. -/
theorem manual_clicks_last_click_wins (q : Question) (cs : List GeoPoint)
    (p : GeoPoint) (hq : resolveFormat q.geoFormat = "manual") :
    (applyClicks (cs ++ [p]) (afterRender q)).drawnItems = [.marker p] ∧
    (applyClicks (cs ++ [p]) (afterRender q)).value = .point p ∧
    (q.value = .absent →
      (applyClicks (cs ++ [p]) (afterRender q)).displayedMarkerCount = 1) := by
  have h1 := manual_render_facts q hq
  rw [applyClicks_append_last _ h1.1]
  refine ⟨rfl, rfl, fun hv => ?_⟩
  simp [WidgetState.displayedMarkerCount, WidgetState.displayedLayers,
    h1.2 hv, Layer.isMarker]

/-- Witness: two clicks on a freshly rendered manual-mode widget with no
saved value; the second click at (11,21) wins and one marker is displayed. -/
theorem manual_clicks_last_click_wins_witness :
    (applyClicks ([⟨10, 20⟩] ++ [⟨11, 21⟩])
        (afterRender ⟨some "manual", .absent, false⟩)).value = .point ⟨11, 21⟩ ∧
    (applyClicks ([⟨10, 20⟩] ++ [⟨11, 21⟩])
        (afterRender ⟨some "manual", .absent, false⟩)).displayedMarkerCount = 1 := by
  have h := manual_clicks_last_click_wins ⟨some "manual", .absent, false⟩
    [⟨10, 20⟩] ⟨11, 21⟩ (by decide)
  exact ⟨h.2.1, h.2.2 rfl⟩

/-- C3: in trace and area modes, after every nonempty sequence of
shape-created events exactly one shape is overlaid: the CREATED handler
clears the drawn-items group before adding the new layer, and trace/area
rehydration puts its shape into that same group, so nothing displayed
survives the clear; two shapes are never overlaid simultaneously. -/
theorem trace_area_single_shape (q : Question) (es : List Layer) (e : Layer)
    (hq : resolveFormat q.geoFormat = "trace" ∨ resolveFormat q.geoFormat = "area") :
    (applyCreatedEvents (es ++ [e]) (afterRender q)).displayedLayers = [e] ∧
    (applyCreatedEvents (es ++ [e]) (afterRender q)).displayedLayers.length = 1 := by
  have h1 := trace_area_render_facts q hq
  rw [applyCreatedEvents_append_last _ h1.1]
  simp [WidgetState.displayedLayers, h1.2]

/-- Witness: two successive polylines drawn in trace mode over a rehydrated
saved path; only the second one remains displayed. -/
theorem trace_area_single_shape_witness :
    (applyCreatedEvents ([Layer.polyline [⟨0, 0⟩, ⟨1, 1⟩]] ++ [Layer.polyline [⟨2, 2⟩, ⟨3, 3⟩]])
        (afterRender ⟨some "trace", .path [⟨5, 5⟩, ⟨6, 6⟩], false⟩)).displayedLayers.length
      = 1 :=
  (trace_area_single_shape ⟨some "trace", .path [⟨5, 5⟩, ⟨6, 6⟩], false⟩
    [Layer.polyline [⟨0, 0⟩, ⟨1, 1⟩]] (Layer.polyline [⟨2, 2⟩, ⟨3, 3⟩])
    (Or.inl (by decide))).2

/-- C4 (counterexample): a trace-shaped persisted value — a flat array of
points — rehydrated under area mode is not treated as absent and does not
produce an empty overlay: the `Array.isArray` guard admits it and the widget
draws a polygon through its points. -/
theorem area_rehydrates_trace_shaped_value :
    (afterRender ⟨some "area", .path [⟨0, 0⟩, ⟨1, 1⟩, ⟨2, 2⟩], false⟩).displayedLayers
      = [.polygon [⟨0, 0⟩, ⟨1, 1⟩, ⟨2, 2⟩] []] ∧
    ¬ (afterRender ⟨some "area", .path [⟨0, 0⟩, ⟨1, 1⟩, ⟨2, 2⟩],
        false⟩).displayedLayers = [] := by
  constructor <;> decide

/-- C4 (amended): mismatches between the point shape and the array shape are
treated as absent without failure — a point value under trace or area mode,
or an array value under current or manual mode, yields an empty overlay.
But trace and area persist the same array shape, so an array value is always
rendered under either mode: as a polyline under trace and as a polygon under
area. -/
theorem kind_mismatch_treated_as_absent (p : GeoPoint) (pts : List GeoPoint)
    (m : String) (hm : m = "trace" ∨ m = "area") :
    (afterRender ⟨some m, .point p, false⟩).displayedLayers = [] ∧
    (afterRender ⟨some "manual", .path pts, false⟩).displayedLayers = [] ∧
    (afterRender ⟨some "current", .path pts, false⟩).displayedLayers = [] ∧
    (afterRender ⟨some "trace", .path pts, false⟩).displayedLayers = [.polyline pts] ∧
    (afterRender ⟨some "area", .path pts, false⟩).displayedLayers
      = [.polygon pts []] := by
  rcases hm with h | h <;> subst h <;>
    simp [afterRender, resolveFormat, loadSavedValue, WidgetState.displayedLayers]

/-- Witness: a point value rehydrated under trace mode yields an empty
overlay. -/
theorem kind_mismatch_treated_as_absent_witness :
    (afterRender ⟨some "trace", .point ⟨1, 2⟩, false⟩).displayedLayers = [] :=
  (kind_mismatch_treated_as_absent ⟨1, 2⟩ [] "trace" (Or.inl rfl)).1

end Geopoint

namespace Geopoint

theorem afterRender_value (q : Question) : (afterRender q).value = q.value := by
  obtain ⟨g, v, ro⟩ := q
  cases v <;> simp only [afterRender, loadSavedValue] <;> (repeat' split) <;> rfl

theorem current_render_facts (q : Question)
    (hq : resolveFormat q.geoFormat = "current") :
    (afterRender q).geoRequests = 1 ∧ (afterRender q).alerts = [] := by
  obtain ⟨g, v, ro⟩ := q
  cases v <;> simp_all [afterRender, loadSavedValue]

/-- C5: when the resolved mode is current, the render issues exactly one
geolocation request; if the sensor reports (lat, lng) the persisted value
becomes that point, a marker is displayed at it and the view centers on it
at zoom 15; if the request fails a user-visible alert is raised, the
persisted value is left exactly as it was, and no further request is
issued. -/
theorem current_mode_geolocation (q : Question) (lat lng : ℚ)
    (hq : resolveFormat q.geoFormat = "current") :
    (afterRender q).geoRequests = 1 ∧
    (geoSuccess lat lng (afterRender q)).value = .point ⟨lat, lng⟩ ∧
    Layer.marker ⟨lat, lng⟩ ∈ (geoSuccess lat lng (afterRender q)).displayedLayers ∧
    (geoSuccess lat lng (afterRender q)).center = some (⟨lat, lng⟩, 15) ∧
    (geoError (afterRender q)).value = q.value ∧
    (geoError (afterRender q)).alerts = ["Unable to retrieve location"] ∧
    (geoError (afterRender q)).geoRequests = 1 := by
  have h1 := current_render_facts q hq
  refine ⟨h1.1, rfl, ?_, rfl, ?_, ?_, ?_⟩
  · simp [geoSuccess, WidgetState.displayedLayers]
  · exact afterRender_value q
  · simp [geoError, h1.2]
  · simp [geoError, h1.1]

/-- Witness: a freshly rendered current-mode widget with no saved value; the
sensor reporting (5.5, 6.6) commits that point, a failure instead leaves the
value absent. -/
theorem current_mode_geolocation_witness :
    (geoSuccess (11 / 2) (33 / 5)
        (afterRender ⟨some "current", .absent, false⟩)).value
      = .point ⟨11 / 2, 33 / 5⟩ ∧
    (geoError (afterRender ⟨some "current", .absent, false⟩)).value = .absent ∧
    (afterRender ⟨some "current", .absent, false⟩).geoRequests = 1 := by
  have h := current_mode_geolocation ⟨some "current", .absent, false⟩
    (11 / 2) (33 / 5) (by decide)
  exact ⟨h.2.1, h.2.2.2.2.1, h.1⟩

/-- C6 (counterexample): an unrecognized non-empty configuration string does
not fall back to the default current mode: with geoFormat "bogus" the render
issues no geolocation request, while an actual current-mode render issues
one — the widget does not behave as in current mode. -/
theorem unrecognized_mode_not_current :
    (afterRender ⟨some "bogus", .absent, false⟩).geoRequests = 0 ∧
    ¬ (afterRender ⟨some "bogus", .absent, false⟩).geoRequests
        = (afterRender ⟨some "current", .absent, false⟩).geoRequests := by
  constructor <;> decide

/-- C6 (amended): only an absent or empty configuration string falls back to
the default current mode (the render is then identical to a current-mode
render); an unrecognized non-empty string yields an inert widget — no
location request, no click or shape-created wiring, no alert and an empty
overlay — and no error is raised. -/
theorem mode_resolution_amended (s : String) (v : CapturedValue) (ro : Bool)
    (hs : s ∉ (["", "current", "manual", "trace", "area", "both", "full"] :
      List String)) :
    afterRender ⟨none, v, ro⟩ = afterRender ⟨some "current", v, ro⟩ ∧
    afterRender ⟨some "", v, ro⟩ = afterRender ⟨some "current", v, ro⟩ ∧
    (afterRender ⟨some s, v, ro⟩).geoRequests = 0 ∧
    (afterRender ⟨some s, v, ro⟩).clickHandlerInstalled = false ∧
    (afterRender ⟨some s, v, ro⟩).createdHandlerInstalled = false ∧
    (afterRender ⟨some s, v, ro⟩).alerts = [] ∧
    (afterRender ⟨some s, v, ro⟩).displayedLayers = [] := by
  simp only [List.mem_cons, List.not_mem_nil, or_false, not_or] at hs
  obtain ⟨h0, h1, h2, h3, h4, h5, h6⟩ := hs
  refine ⟨rfl, rfl, ?_, ?_, ?_, ?_, ?_⟩ <;>
    cases v <;>
      simp [afterRender, resolveFormat, loadSavedValue,
        WidgetState.displayedLayers, h0, h1, h2, h3, h4, h5, h6]

/-- Witness: the amended fallback behaviour at the concrete unrecognized
string "bogus". -/
theorem mode_resolution_amended_witness :
    (afterRender ⟨some "bogus", .absent, false⟩).clickHandlerInstalled = false ∧
    (afterRender ⟨some "bogus", .absent, false⟩).createdHandlerInstalled = false := by
  have h := mode_resolution_amended "bogus" .absent false (by decide)
  exact ⟨h.2.2.2.1, h.2.2.2.2.1⟩

/-- C7 (the code contradicts the claim): geopoint's afterRender never reads
question.isReadOnly — the render is literally identical for a read-only and
a writable question (the sibling microphone widget, by contrast, removes its
capture buttons when isReadOnly is set).  In manual mode with isReadOnly
true, the click handler is still installed and a click at (10,20) still
commits the value {lat: 10, lng: 20}. -/
theorem readonly_manual_click_still_commits :
    afterRender ⟨some "manual", .absent, true⟩
      = afterRender ⟨some "manual", .absent, false⟩ ∧
    (afterRender ⟨some "manual", .absent, true⟩).clickHandlerInstalled = true ∧
    (clickEvent ⟨10, 20⟩ (afterRender ⟨some "manual", .absent, true⟩)).value
      = .point ⟨10, 20⟩ := by
  refine ⟨rfl, by decide, by decide⟩

/-- C8 (the code contradicts the claim): willUnmount removes the Leaflet map
but installs no stale-session guard, and the geolocation success callback
performs no liveness check before mutating: a sensor result (5.5, 6.6)
arriving after unmount still commits the value and still adds a marker to
the disposed map — it is not a no-op. -/
theorem stale_sensor_callback_mutates_disposed_session :
    (willUnmount (afterRender ⟨some "current", .absent, false⟩)).mapRemoved
      = true ∧
    (geoSuccess (11 / 2) (33 / 5)
        (willUnmount (afterRender ⟨some "current", .absent, false⟩))).value
      = .point ⟨11 / 2, 33 / 5⟩ ∧
    (geoSuccess (11 / 2) (33 / 5)
        (willUnmount (afterRender ⟨some "current", .absent, false⟩))).mapRemoved
      = true ∧
    ¬ (geoSuccess (11 / 2) (33 / 5)
        (willUnmount (afterRender ⟨some "current", .absent, false⟩))).displayedLayers
      = [] := by
  refine ⟨rfl, rfl, rfl, ?_⟩
  simp [geoSuccess, willUnmount, WidgetState.displayedLayers]

end Geopoint
